import Mathlib

/-!
# Verification of the Jira ticket automation pipeline

Shallow embedding of the repository's three source files:
`jira_ticket_automation.py`, `email_processing_dashboard.py`,
`email_summarizer.py`.  Strings manipulated character-wise by the code
(the e-mail subject) are modelled as `List Char`; other text is `String`.
External I/O (IMAP session, Jira REST calls, the summarization API,
`json.loads`) is modelled by passing the outcome of each call as an
explicit input, while the code's own control flow, string building and
data handling are translated from the source.
-/

namespace JiraAuto

/-- The status strings the orchestrator writes to the dashboard
(`dashboard.update_status` is called with exactly these four values in
`jira_ticket_automation.py`). -/
inductive Status where
  | Processing
  | Skipped
  | Completed
  | Failed
deriving DecidableEq, Repr

/-- Structured e-mail as produced by `EmailProcessor.parse_email` and
consumed by `process_new_email` (fields actually read by the code:
`subject`, `body`, `sender`, `recipients`, `attachments`). -/
structure EmailData where
  subject : List Char
  body : String
  sender : String
  recipients : List String
  attachments : List String
deriving DecidableEq, Repr

/-- Result of `categorize_email`: the strings `'spam'` / `'new'` or the
tuple `('existing', ticket_refs[0])` of the source. -/
inductive Category where
  | spam
  | existing (ticketKey : List Char)
  | new
deriving DecidableEq, Repr

/-- `keyword in subject` — Python's substring test, translated to lists of
characters. -/
def containsSub (needle hay : List Char) : Bool :=
  needle.isPrefixOf hay ||
    match hay with
    | [] => false
    | _ :: t => containsSub needle t

/-- `subject.lower()` (ASCII lowering; the spam keywords are ASCII). -/
def lowerStr (s : List Char) : List Char := s.map Char.toLower

/-- The fixed keyword list of `categorize_email`. -/
def spam_keywords : List (List Char) :=
  ["spam".toList, "advertisement".toList, "promotion".toList,
   "offer".toList, "deal".toList]

/-- `[A-Z]` of the pattern `r'[A-Z]+-\d+'` (ASCII uppercase only). -/
def isUpperAZ (c : Char) : Bool := 'A' ≤ c && c ≤ 'Z'

/-- `\d` of the pattern (ASCII digits). -/
def isDigit09 (c : Char) : Bool := '0' ≤ c && c ≤ '9'

/-- Attempt to match the regex `[A-Z]+-\d+` at the start of `cs`.
`[A-Z]+` is greedy and every shorter run still ends on an uppercase
letter (never `'-'`), so backtracking cannot succeed where the maximal
run does not: the match at a position is the maximal uppercase run, a
hyphen, then the maximal digit run.  Returns the matched text and the
remainder of the input after the match. -/
def matchTicketAt (cs : List Char) : Option (List Char × List Char) :=
  let ups := cs.takeWhile isUpperAZ
  if ups.isEmpty then none
  else
    match cs.dropWhile isUpperAZ with
    | '-' :: rest1 =>
      let ds := rest1.takeWhile isDigit09
      if ds.isEmpty then none
      else some (ups ++ '-' :: ds, rest1.drop ds.length)
    | _ => none

/-- `re.findall` scanning: try each position left to right, matches are
non-overlapping, scanning resumes after each match.  The fuel argument
(initially the input length, which suffices: every step consumes at
least one character) makes the recursion structural so that the
function evaluates by kernel reduction. -/
def findAllAux : Nat → List Char → List (List Char)
  | 0, _ => []
  | _ + 1, [] => []
  | fuel + 1, c :: cs =>
    match matchTicketAt (c :: cs) with
    | some (m, rest) => m :: findAllAux fuel rest
    | none => findAllAux fuel cs

/-- `re.findall(r'[A-Z]+-\d+', subject)`. -/
def findAllTickets (cs : List Char) : List (List Char) :=
  findAllAux cs.length cs

/-- The first (leftmost) match of the pattern, directly: scan positions
left to right and return the match at the first position where one
exists. -/
def findFirstTicket : List Char → Option (List Char)
  | [] => none
  | c :: cs =>
    match matchTicketAt (c :: cs) with
    | some (m, _) => some m
    | none => findFirstTicket cs

/-- `JiraTicketAutomation.categorize_email`: spam keywords first (on the
lowered subject), else first ticket reference, else new. -/
def categorize_email (email : EmailData) : Category :=
  if spam_keywords.any (fun k => containsSub k (lowerStr email.subject)) then
    .spam
  else
    match findAllTickets email.subject with
    | t :: _ => .existing t
    | [] => .new

/-! ## The summarization step of `process_new_email`

`process_new_email` calls `self.email_summarizer.summarize_email(...)`
and then `json.loads(summary_response)` inside one `try` block.  The
model passes the joint outcome of those two external steps as an
explicit `Except`: an exception anywhere in the block (connection to
the decode error of `json.loads`) is the `.error` case; a successful
decode yields the decoded JSON value.  JSON values are modelled to the
depth the program inspects them: the top level is either an object
(dict) or not, and a field value is observed only through Python's
`str()` rendering and slice (`[:100]`) operations. -/

/-- A decoded JSON field value, to the depth the program observes it:
a string, a list (elements carried as their rendered text), or any
other value (number, bool, null, nested object), carried as its
`str()` text; slicing the latter raises `TypeError`. -/
inductive PyVal where
  | str (s : String)
  | listV (elems : List String)
  | raw (rendered : String)
deriving DecidableEq, Repr

/-- The decoded top-level JSON reply: a dict (with its fields) or any
non-dict value, on which `.get` raises `AttributeError`. -/
inductive JsonTop where
  | obj (fields : List (String × PyVal))
  | nonObj (v : PyVal)
deriving DecidableEq, Repr

/-- Python `str()` of a field value (used in f-strings). -/
def render : PyVal → String
  | .str s => s
  | .listV es => "[" ++ String.intercalate ", " es ++ "]"
  | .raw r => r

/-- Python `value[:100]`: defined for strings and lists, `TypeError`
otherwise. -/
def pySlice100 : PyVal → Except String PyVal
  | .str s => .ok (.str (s.take 100))
  | .listV es => .ok (.listV (es.take 100))
  | .raw _ => .error "TypeError: value does not support slicing"

/-- Python `dict.get(key, default)`. -/
def dictGet (fields : List (String × PyVal)) (key : String) (dflt : PyVal) :
    PyVal :=
  match fields.find? (fun f => f.1 == key) with
  | some f => f.2
  | none => dflt

/-- Lines 130–137 of `jira_ticket_automation.py`: decode the reply,
read the four keys with `.get` defaults, and build the
`f"Summary: {summary[:100]}..."` detail string.  Any raised exception
(decode failure, `.get` on a non-dict, slicing an unsliceable summary)
is the `.error` case, caught by the surrounding `except`.  Returns the
`summary` value (used later for the issue description) and the detail
string of the second status update. -/
def summarizeStep (d : Except String JsonTop) :
    Except String (PyVal × String) :=
  match d with
  | .error e => .error e
  | .ok (.nonObj _) => .error "AttributeError: object has no attribute get"
  | .ok (.obj fs) =>
    let summary := dictGet fs "summary" (.str "No summary available")
    let _participants := dictGet fs "participants" (.listV [])
    let _priority := dictGet fs "priority" (.str "Low")
    let _category := dictGet fs "category" (.str "Other")
    match pySlice100 summary with
    | .error e => .error e
    | .ok s100 => .ok (summary, "Summary: " ++ render s100 ++ "...")

/-! ## Ticket synchronizer -/

/-- Configuration read from the environment at startup
(`JIRA_PROJECT_KEY`, `JIRA_ISSUE_TYPE`). -/
structure AppConfig where
  jira_project : String
  issue_type : String
deriving DecidableEq, Repr

/-- Outcome of the external Jira calls for one message: whether the
whole `update_jira_ticket` try-block succeeds, and the new issue key
when the whole `create_jira_ticket` try-block succeeds (`none` models
an exception anywhere inside it). -/
structure TrackerEnv where
  updateOk : Bool
  createKey : Option String
deriving DecidableEq, Repr

/-- A tracker operation issued by the orchestrator (create with its
fields, or comment-and-attach on an existing issue). -/
inductive TrackerCall where
  | createIssue (projectKey summary description issueType : String)
      (attachments : List String)
  | updateIssue (ticketKey comment : String) (attachments : List String)
deriving DecidableEq, Repr

/-- The `fields=` dict built at lines 156–161. -/
structure IssueDict where
  projectKey : String
  summary : String
  description : String
  issueType : String
deriving DecidableEq, Repr

/-- `JiraTicketAutomation.update_jira_ticket`: look up the issue, add a
comment concatenating sender and body, upload attachments; every
exception is caught and `False` returned, otherwise `True`.  Returns
the tracker operation issued and the boolean result. -/
def update_jira_ticket (env : TrackerEnv) (ticket_key : String)
    (email : EmailData) : List TrackerCall × Bool :=
  ([TrackerCall.updateIssue ticket_key
      ("Additional information from " ++ email.sender ++ ":\n" ++ email.body)
      email.attachments],
   env.updateOk)

/-- `JiraTicketAutomation.create_jira_ticket`: create the issue, upload
attachments, register the key in `processed_tickets`, return the key;
on any exception return `None`.  Returns the tracker operation issued
and the optional key. -/
def create_jira_ticket (env : TrackerEnv) (issue_dict : IssueDict)
    (attachments : List String) : List TrackerCall × Option String :=
  ([TrackerCall.createIssue issue_dict.projectKey issue_dict.summary
      issue_dict.description issue_dict.issueType attachments],
   env.createKey)

/-! ## The orchestrator: `process_new_email` -/

/-- External outcomes for one message's processing: the configuration,
the result of `parse_email`, the joint outcome of the summarizer call
and `json.loads`, and the tracker outcomes. -/
structure ProcEnv where
  config : AppConfig
  parseResult : Except String EmailData
  decodeResult : Except String JsonTop
  tracker : TrackerEnv
deriving Repr

/-- Observable trace of one `process_new_email` invocation: the
`update_status` calls in order (for the invocation's fresh uuid), the
tracker operations issued, the keys registered in
`processed_tickets`, and the outbound notifications sent.  The source
contains no outbound-notification call on any path, so the last list
is always empty. -/
structure ProcOutput where
  updates : List (Status × String)
  trackerCalls : List TrackerCall
  registeredTickets : List String
  notifications : List String
deriving DecidableEq, Repr

/-- `JiraTicketAutomation.process_new_email`, lines 114–176, translated
clause by clause: parse; `Processing`/"Email received"; the
summarization step (`Failed` and return on exception); categorize; on
spam `Skipped` and return; on existing, update the ticket and write
`Completed` only when the update returns `True` (no `else` branch in
the source); on new, create the ticket, `Completed` with the key on
success, `Failed` otherwise. -/
def process_new_email (env : ProcEnv) : ProcOutput :=
  match env.parseResult with
  | .error e => ⟨[(.Failed, "Error processing email: " ++ e)], [], [], []⟩
  | .ok email_data =>
    let u1 : Status × String := (.Processing, "Email received")
    match summarizeStep env.decodeResult with
    | .error e => ⟨[u1, (.Failed, "Summarization failed: " ++ e)], [], [], []⟩
    | .ok (summary, u2detail) =>
      let u2 : Status × String := (.Processing, u2detail)
      match categorize_email email_data with
      | .spam => ⟨[u1, u2, (.Skipped, "Spam detected")], [], [], []⟩
      | .existing key =>
        let r := update_jira_ticket env.tracker (String.mk key) email_data
        if r.2 then
          ⟨[u1, u2, (.Completed, "Updated ticket " ++ String.mk key)],
           r.1, [], []⟩
        else
          ⟨[u1, u2], r.1, [], []⟩
      | .new =>
        let issue_dict : IssueDict :=
          ⟨env.config.jira_project, String.mk email_data.subject,
           "Summary:\n" ++ render summary ++ "\n", env.config.issue_type⟩
        let r := create_jira_ticket env.tracker issue_dict
          email_data.attachments
        match r.2 with
        | some k =>
          ⟨[u1, u2, (.Completed, "Created ticket " ++ k)], r.1, [k], []⟩
        | none =>
          ⟨[u1, u2, (.Failed, "Failed to create ticket")], r.1, [], []⟩

/-! ## The watch loop: `monitor_inbox`

The loop runs `while self.running`; a run is modelled by the finite
script of cycles it executes.  Each cycle either completes
`select`/`search` successfully, yielding a list of unseen messages, or
raises a session error there.  Inside a cycle each message's
`fetch` + processing is wrapped in its own `try/except` that logs and
continues; an exception at `select`/`search` propagates to the outer
`try`, which logs and re-raises (there is no `reconnect` anywhere in
the source). -/

/-- One unseen message of a poll cycle: the outcome of
`imap.fetch` + `message_from_bytes` + everything up to the
`process_new_email` call (`.error` = exception caught by the
per-message `except`), and on success the external outcomes for the
message's processing. -/
structure MsgScript where
  fetch : Except String ProcEnv
deriving Repr

/-- One iteration of the watch loop. -/
inductive CycleScript where
  | ok (msgs : List MsgScript)
  | sessionError (e : String)
deriving Repr

/-- Observable result of running the loop on a script: the outputs of
the messages actually processed, and whether the loop raised
(`.error e` = the outer `except` logged and re-raised `e`) or is still
polling at the end of the script (`.ok ()`). -/
structure MonitorOutput where
  processed : List ProcOutput
  result : Except String Unit
deriving Repr

/-- `JiraTicketAutomation.monitor_inbox`, lines 178–203: process each
cycle in order; a per-message error skips only that message; a session
error at `select`/`search` aborts the whole loop by re-raising. -/
def monitor_inbox : List CycleScript → MonitorOutput
  | [] => ⟨[], .ok ()⟩
  | .sessionError e :: _ => ⟨[], .error e⟩
  | .ok msgs :: rest =>
    let outs := msgs.filterMap (fun m =>
      match m.fetch with
      | .ok env => some (process_new_email env)
      | .error _ => none)
    let r := monitor_inbox rest
    ⟨outs ++ r.processed, r.result⟩

/-! ## The global dashboard log

`process_new_email` draws a fresh `uuid.uuid4()` per invocation and
keys every `update_status` call with it, so distinct invocations
write to distinct ledger records.  The model realizes uuid freshness
by numbering the processed messages of a run consecutively and
tagging each invocation's updates with its number. -/

/-- Dashboard updates of one cycle, each tagged with its invocation's
fresh id; ids are allocated only when `process_new_email` runs (a
fetch error happens before the uuid is drawn). -/
def cycleLog (n : Nat) : List MsgScript → List (Nat × Status × String)
  | [] => []
  | m :: ms =>
    match m.fetch with
    | .ok env =>
      ((process_new_email env).updates.map (fun u => (n, u.1, u.2)))
        ++ cycleLog (n + 1) ms
    | .error _ => cycleLog n ms

/-- Number of messages of a cycle that reach `process_new_email` (and
hence consume a fresh id). -/
def okCount : List MsgScript → Nat
  | [] => 0
  | m :: ms =>
    match m.fetch with
    | .ok _ => okCount ms + 1
    | .error _ => okCount ms

/-- All `update_status` calls of a whole run, in order, tagged with
their invocation ids. -/
def monitor_log : Nat → List CycleScript → List (Nat × Status × String)
  | _, [] => []
  | _, .sessionError _ :: _ => []
  | n, .ok msgs :: rest =>
    cycleLog n msgs ++ monitor_log (n + okCount msgs) rest

/-- The sequence of status values written to the record of id `id`,
in write order. -/
def statusesFor (id : Nat) (l : List (Nat × Status × String)) :
    List Status :=
  l.filterMap (fun e => if e.1 = id then some e.2.1 else none)

/-! ## The dashboard: `calculate_success_rate` -/

/-- One value of `processing_status` in
`email_processing_dashboard.py`. -/
structure LedgerRecord where
  status : Status
  timestamp : String
  details : String
deriving DecidableEq, Repr

/-- Python's `round` to an integer: nearest, ties to even. -/
def roundHalfEven (q : ℚ) : ℤ :=
  let f := ⌊q⌋
  let frac := q - f
  if frac < 1/2 then f
  else if 1/2 < frac then f + 1
  else if 2 ∣ f then f else f + 1

/-- Python's `round(x, 2)` over exact rationals (the float
representation error of the source's binary floats is below the
granularity any claim mentions). -/
def pyRound2 (q : ℚ) : ℚ := (roundHalfEven (q * 100) : ℚ) / 100

/-- `EmailProcessingDashboard.calculate_success_rate`, lines 110–114:
count the records whose status is `Completed`, divide by the record
count when positive (else use `100`), scale to percent, round to two
decimals. -/
def calculate_success_rate (records : List LedgerRecord) : ℚ :=
  let completed :=
    (records.filter (fun s => s.status == Status.Completed)).length
  let total := records.length
  pyRound2 (if total > 0 then (completed : ℚ) / (total : ℚ) * 100 else 100)

/-! ## The two `EmailSummarizer.summarize_email` variants

The repository contains two definitions of
`EmailSummarizer.summarize_email`: one inside
`jira_ticket_automation.py` (the one the orchestrator uses — the
module import of the other is commented out) and one in
`email_summarizer.py`.  The external call
`self.client.chat.completions.create(...)` together with the content
extraction is passed as an explicit outcome: `.error e` is an
exception raised inside the `try` block (connection error, rate
limiting, `choices[0]` on an empty list, ...); `.ok (some c)` is a
truthy completion whose extracted content is `c`; `.ok none` is a
falsy/empty completion, which makes the guarding `if` fall through. -/

/-- `json.dumps` of the fallback dict of the
`jira_ticket_automation.py` variant (lines 284–289). -/
def fallback_json : String :=
  "\x7b\"summary\": \"Summary unavailable due to processing error\", " ++
  "\"participants\": [], \"priority\": \"Low\", \"category\": \"Other\"\x7d"

/-- `json.dumps` of the empty-response fallback dict of
`email_summarizer.py` (lines 74–79). -/
def no_summary_json : String :=
  "\x7b\"summary\": \"No summary available\", \"participants\": [], " ++
  "\"priority\": \"Low\", \"category\": \"Other\"\x7d"

/-- Python `json.dumps` of one key/value pair (to the shapes that occur
in the two fallback dicts). -/
def dumpsField : String × PyVal → String
  | (k, .str s) => "\"" ++ k ++ "\": \"" ++ s ++ "\""
  | (k, .listV es) => "\"" ++ k ++ "\": [" ++ String.intercalate ", " es ++ "]"
  | (k, .raw r) => "\"" ++ k ++ "\": " ++ r

/-- Python `json.dumps` of a dict (insertion order, default
separators). -/
def dumpsObj (fs : List (String × PyVal)) : String :=
  "\x7b" ++ String.intercalate ", " (fs.map dumpsField) ++ "\x7d"

/-- The structured fallback value of the `jira_ticket_automation.py`
summarizer: summary text, empty participants, priority Low, category
Other. -/
def fallback_fields : List (String × PyVal) :=
  [("summary", .str "Summary unavailable due to processing error"),
   ("participants", .listV []),
   ("priority", .str "Low"),
   ("category", .str "Other")]

/-- `EmailSummarizer.summarize_email` of `jira_ticket_automation.py`,
lines 234–289: on a truthy completion return its content; on a falsy
completion fall off the end of the function (Python returns `None`);
on any exception return the fallback JSON string.  The function never
raises. -/
def summarize_email_jta (call : Except String (Option String)) :
    Option String :=
  match call with
  | .ok (some content) => some content
  | .ok none => none
  | .error _ => some fallback_json

/-- `EmailSummarizer.summarize_email` of `email_summarizer.py`, lines
34–85: on a completion with choices return the content; on an
empty/falsy response return the `No summary available` fallback; the
`except` clauses for `json.JSONDecodeError` and `APIConnectionError`
both `raise`, and any other exception has no handler, so every
exception propagates to the caller. -/
def summarize_email_standalone (call : Except String (Option String)) :
    Except String String :=
  match call with
  | .ok (some content) => .ok content
  | .ok none => .ok no_summary_json
  | .error e => .error e

/-! ## Concrete scenario inputs used by counterexamples and witnesses -/

/-- Scenario B of the spec: subject referencing `TICK-45`, but with the
tracker update failing. -/
def envExistingFail : ProcEnv :=
  ⟨⟨"PROJ", "Task"⟩,
   .ok ⟨"Fwd: Build failing TICK-45".toList, "stack trace", "bob@example.com",
        ["support@example.com"], []⟩,
   .ok (.obj [("summary", .str "Build failing")]),
   ⟨false, none⟩⟩

/-- Scenario B with the tracker update succeeding. -/
def envExistingOk : ProcEnv :=
  ⟨⟨"PROJ", "Task"⟩,
   .ok ⟨"Fwd: Build failing TICK-45".toList, "stack trace", "bob@example.com",
        ["support@example.com"], []⟩,
   .ok (.obj [("summary", .str "Build failing")]),
   ⟨true, none⟩⟩

/-- Scenario C of the spec: subject with neither keyword nor ticket
pattern, tracker create succeeding with key `OPS-101`. -/
def envNewOk : ProcEnv :=
  ⟨⟨"PROJ", "Task"⟩,
   .ok ⟨"Server down".toList, "the server is down", "alice@example.com",
        ["ops@example.com"], []⟩,
   .ok (.obj [("summary", .str "Outage")]),
   ⟨true, some "OPS-101"⟩⟩

/-- Scenario D of the spec: the summarization reply is not decodable
JSON. -/
def envDecodeFail : ProcEnv :=
  ⟨⟨"PROJ", "Task"⟩,
   .ok ⟨"Server down".toList, "the server is down", "alice@example.com",
        ["ops@example.com"], []⟩,
   .error "Expecting value: line 1 column 1 (char 0)",
   ⟨true, some "OPS-101"⟩⟩

/-- A reply that decodes to a JSON object with none of the expected
keys, on a message classified as a new issue, tracker create
succeeding. -/
def envEmptyObj : ProcEnv :=
  ⟨⟨"PROJ", "Task"⟩,
   .ok ⟨"Server down".toList, "the server is down", "alice@example.com",
        ["ops@example.com"], []⟩,
   .ok (.obj []),
   ⟨true, some "OPS-101"⟩⟩

/-- Two replies agreeing on `summary` but with different
`participants`, `priority` and `category` values, on the same message
and tracker outcomes. -/
def envSummaryA : ProcEnv :=
  ⟨⟨"PROJ", "Task"⟩,
   .ok ⟨"Server down".toList, "the server is down", "alice@example.com",
        ["ops@example.com"], []⟩,
   .ok (.obj [("summary", .str "Outage"),
              ("participants", .listV ["alice", "bob"]),
              ("priority", .str "High"),
              ("category", .str "Technical")]),
   ⟨true, some "OPS-101"⟩⟩

/-- Same as `envSummaryA` except for the three fields the claim says
are ignored. -/
def envSummaryB : ProcEnv :=
  ⟨⟨"PROJ", "Task"⟩,
   .ok ⟨"Server down".toList, "the server is down", "alice@example.com",
        ["ops@example.com"], []⟩,
   .ok (.obj [("summary", .str "Outage"),
              ("participants", .listV []),
              ("priority", .str "Low"),
              ("category", .str "Business")]),
   ⟨true, some "OPS-101"⟩⟩

/-- A watch-loop script: one good cycle, then a session abort at
`select`/`search`, then one further scripted cycle that the spec says
should still be served after a reconnect. -/
def scriptAbort : List CycleScript :=
  [.ok [⟨.ok envNewOk⟩],
   .sessionError "imaplib abort: socket error",
   .ok [⟨.ok envExistingOk⟩]]

/-! ## Helper lemmas -/

/-- Reduction of the summarization step on a decoded object. -/
theorem summarizeStep_obj (fs : List (String × PyVal)) :
    summarizeStep (.ok (.obj fs)) =
      match pySlice100 (dictGet fs "summary" (.str "No summary available")) with
      | .error e => .error e
      | .ok s100 =>
        .ok (dictGet fs "summary" (.str "No summary available"),
             "Summary: " ++ render s100 ++ "...") := rfl

/-! ## Claim theorems -/

/-- C9 (amended half): the source of `process_new_email` contains no
outbound-notification call, so the trace of notifications sent is
empty on every path — also when the message ends `Completed`. -/
theorem process_never_notifies (env : ProcEnv) :
    (process_new_email env).notifications = [] := by
  unfold process_new_email
  repeat first | rfl | split | dsimp only

/-- C9 counterexample: a message that ends in terminal `Completed`
(scenario C of the spec, created ticket `OPS-101`) for which the
number of notifications sent is `0`, not `1` as the claim states. -/
theorem notification_missing_on_completed :
    (process_new_email envNewOk).updates.getLast? =
      some (Status.Completed, "Created ticket OPS-101")
  ∧ (process_new_email envNewOk).notifications.length = 0 :=
  ⟨rfl, rfl⟩

/-- C5: when the orchestrator's JSON decode of the summarization reply
fails, the record receives exactly the `Processing`/"Email received"
update and then the terminal `Failed` update whose details carry the
summarization-failure indicator, and no tracker call at all is made
for that message. -/
theorem decode_failure_fails_without_tracker (env : ProcEnv)
    (ed : EmailData) (e : String)
    (hp : env.parseResult = .ok ed)
    (hd : env.decodeResult = .error e) :
    (process_new_email env).updates =
      [(Status.Processing, "Email received"),
       (Status.Failed, "Summarization failed: " ++ e)]
  ∧ (process_new_email env).trackerCalls = [] := by
  have hs : summarizeStep env.decodeResult = .error e := by rw [hd]; rfl
  constructor <;> simp only [process_new_email, hp, hs]

/-- C5 witness: scenario D instantiated with a concrete undecodable
reply. -/
theorem decode_failure_witness :
    (process_new_email envDecodeFail).updates =
      [(Status.Processing, "Email received"),
       (Status.Failed,
        "Summarization failed: Expecting value: line 1 column 1 (char 0)")]
  ∧ (process_new_email envDecodeFail).trackerCalls = [] := by
  have h := decode_failure_fails_without_tracker envDecodeFail
    ⟨"Server down".toList, "the server is down", "alice@example.com",
     ["ops@example.com"], []⟩
    "Expecting value: line 1 column 1 (char 0)" rfl rfl
  exact ⟨h.1, h.2⟩

/-- C10: the `participants`, `priority` and `category` fields of a
decoded summarization reply never influence the observable behaviour:
for two runs on the same message with the same tracker outcomes whose
replies decode to objects agreeing on the `summary` lookup, the whole
observable output (status updates, tracker calls, registered tickets,
notifications) is identical. -/
theorem reply_fields_other_than_summary_ignored
    (env1 env2 : ProcEnv) (fs1 fs2 : List (String × PyVal))
    (hc : env1.config = env2.config)
    (hp : env1.parseResult = env2.parseResult)
    (ht : env1.tracker = env2.tracker)
    (h1 : env1.decodeResult = .ok (.obj fs1))
    (h2 : env2.decodeResult = .ok (.obj fs2))
    (hs : dictGet fs1 "summary" (.str "No summary available")
        = dictGet fs2 "summary" (.str "No summary available")) :
    process_new_email env1 = process_new_email env2 := by
  obtain ⟨c1, p1, d1, t1⟩ := env1
  obtain ⟨c2, p2, d2, t2⟩ := env2
  dsimp only at hc hp ht h1 h2
  subst hc hp ht h1 h2
  have hss : summarizeStep (.ok (.obj fs1)) = summarizeStep (.ok (.obj fs2)) := by
    rw [summarizeStep_obj, summarizeStep_obj, hs]
  unfold process_new_email
  dsimp only
  rw [hss]

/-- C10 witness: two concrete replies agreeing on `summary` but with
different `participants`, `priority` and `category` produce identical
outputs. -/
theorem reply_fields_ignored_witness :
    process_new_email envSummaryA = process_new_email envSummaryB :=
  reply_fields_other_than_summary_ignored envSummaryA envSummaryB
    [("summary", .str "Outage"), ("participants", .listV ["alice", "bob"]),
     ("priority", .str "High"), ("category", .str "Technical")]
    [("summary", .str "Outage"), ("participants", .listV []),
     ("priority", .str "Low"), ("category", .str "Business")]
    rfl rfl rfl rfl rfl rfl

/-- C4 counterexample: the `email_summarizer.py` variant re-raises a
connection failure instead of returning the fallback result, refuting
the claim that `summarize_email` never raises on transport failure. -/
theorem standalone_summarizer_raises :
    summarize_email_standalone
        (.error "APIConnectionError: Connection failed")
      = .error "APIConnectionError: Connection failed" := rfl

/-- C4 (amended): the `jira_ticket_automation.py` variant (the one the
orchestrator uses) is total and never raises — every exception from
the model call yields the deterministic fallback dict (summary
"Summary unavailable due to processing error", no participants,
priority Low, category Other, serialized by `json.dumps`), a truthy
completion returns its content verbatim (no shape validation), and a
falsy completion returns Python `None` — while the standalone
`email_summarizer.py` variant propagates every exception and only
maps an empty response to its "No summary available" fallback. -/
theorem summarizer_totality_by_variant :
    (∀ e, summarize_email_jta (.error e) = some (dumpsObj fallback_fields))
  ∧ (∀ c, summarize_email_jta (.ok (some c)) = some c)
  ∧ summarize_email_jta (.ok none) = none
  ∧ (∀ e, summarize_email_standalone (.error e) = .error e)
  ∧ (∀ c, summarize_email_standalone (.ok (some c)) = .ok c)
  ∧ summarize_email_standalone (.ok none) = .ok no_summary_json :=
  ⟨fun _ => rfl, fun _ => rfl, rfl, fun _ => rfl, fun _ => rfl, rfl⟩

/-- C7: the dashboard success rate is `100` on an empty ledger; on a
nonempty ledger it is `completed/total*100` rounded to two decimals
where `completed` counts exactly the `Completed` records; it is `100`
whenever every record is `Completed`, and `0` on a nonempty ledger
with no `Completed` record; the `total > 0` guard means no division
by zero is ever evaluated. -/
theorem success_rate_characterization (records : List LedgerRecord) :
    (records = [] → calculate_success_rate records = 100)
  ∧ (records ≠ [] →
      calculate_success_rate records =
        pyRound2
          (((records.filter
              (fun s => s.status == Status.Completed)).length : ℚ)
            / (records.length : ℚ) * 100))
  ∧ ((∀ r ∈ records, r.status = Status.Completed) →
      calculate_success_rate records = 100)
  ∧ (records ≠ [] → (∀ r ∈ records, r.status ≠ Status.Completed) →
      calculate_success_rate records = 0) := by
  refine ⟨?_, ?_, ?_, ?_⟩
  · rintro rfl
    norm_num [calculate_success_rate, pyRound2, roundHalfEven]
  · intro hne
    have hl : 0 < records.length := List.length_pos.mpr hne
    simp only [calculate_success_rate, hl, if_pos]
  · intro hall
    have hfil : records.filter (fun s => s.status == Status.Completed)
        = records :=
      List.filter_eq_self.mpr (fun a ha => by
        simp only [beq_iff_eq]; exact hall a ha)
    unfold calculate_success_rate
    dsimp only
    rw [hfil]
    rcases Nat.eq_zero_or_pos records.length with h0 | hpos
    · rw [h0]
      norm_num [pyRound2, roundHalfEven]
    · have hne : (records.length : ℚ) ≠ 0 := by
        exact_mod_cast Nat.pos_iff_ne_zero.mp hpos
      rw [if_pos hpos, div_self hne]
      norm_num [pyRound2, roundHalfEven]
  · intro hne hnone
    have hfil : records.filter (fun s => s.status == Status.Completed)
        = [] :=
      List.filter_eq_nil_iff.mpr (fun a ha => by
        simp only [beq_iff_eq]; exact hnone a ha)
    have hl : 0 < records.length := List.length_pos.mpr hne
    unfold calculate_success_rate
    dsimp only
    rw [hfil, if_pos hl]
    norm_num [pyRound2, roundHalfEven]

/-- C7 witness: one completed and one failed record give a 50% success
rate. -/
theorem success_rate_witness :
    calculate_success_rate
      [⟨Status.Completed, "t1", "d1"⟩, ⟨Status.Failed, "t2", "d2"⟩] = 50 := by
  have h := (success_rate_characterization
    [⟨Status.Completed, "t1", "d1"⟩, ⟨Status.Failed, "t2", "d2"⟩]).2.1
    (by decide)
  rw [h]
  have hf : List.filter (fun s => s.status == Status.Completed)
      [(⟨Status.Completed, "t1", "d1"⟩ : LedgerRecord),
       ⟨Status.Failed, "t2", "d2"⟩]
      = [⟨Status.Completed, "t1", "d1"⟩] := rfl
  rw [hf]
  norm_num [pyRound2, roundHalfEven]

set_option maxRecDepth 8192 in
/-- C1 counterexample: a message classified `ExistingIssue` (scenario B
subject `"Fwd: Build failing TICK-45"`) whose tracker update fails: the
update call is issued and reports failure, yet no `Failed` status is
ever written — the record's last update is still the non-terminal
`Processing`, refuting the claim that the record ends in `Failed`. -/
theorem existing_update_failure_not_failed :
    categorize_email
        ⟨"Fwd: Build failing TICK-45".toList, "stack trace",
         "bob@example.com", ["support@example.com"], []⟩
      = Category.existing ("TICK-45".toList)
  ∧ envExistingFail.tracker.updateOk = false
  ∧ (process_new_email envExistingFail).trackerCalls.length = 1
  ∧ (process_new_email envExistingFail).updates.map Prod.fst =
      [Status.Processing, Status.Processing]
  ∧ ((process_new_email envExistingFail).updates.map Prod.fst).contains
      Status.Failed = false :=
  ⟨rfl, rfl, rfl, rfl, rfl⟩

/-- C1 (amended): after a successful summarization step, a message
classified `ExistingIssue` ends `Completed` with the ticket key and
action when the tracker update succeeds, but on update failure no
further status is written (the record stays at the non-terminal
`Processing`, the `if` at line 153 having no `else`); a message
classified `NewIssue` ends `Completed` with the created key on
success and `Failed` with the fixed detail "Failed to create ticket"
(the underlying cause is only logged, not recorded) on failure. -/
theorem tracker_outcome_statuses (env : ProcEnv) (ed : EmailData)
    (summary : PyVal) (d2 : String)
    (hp : env.parseResult = .ok ed)
    (hs : summarizeStep env.decodeResult = .ok (summary, d2)) :
    (∀ k, categorize_email ed = .existing k → env.tracker.updateOk = true →
      (process_new_email env).updates.getLast? =
        some (Status.Completed, "Updated ticket " ++ String.mk k))
  ∧ (∀ k, categorize_email ed = .existing k → env.tracker.updateOk = false →
      (process_new_email env).updates =
        [(Status.Processing, "Email received"), (Status.Processing, d2)])
  ∧ (∀ key, categorize_email ed = .new → env.tracker.createKey = some key →
      (process_new_email env).updates.getLast? =
        some (Status.Completed, "Created ticket " ++ key))
  ∧ (categorize_email ed = .new → env.tracker.createKey = none →
      (process_new_email env).updates.getLast? =
        some (Status.Failed, "Failed to create ticket")) := by
  refine ⟨?_, ?_, ?_, ?_⟩
  · intro k hc hu
    simp only [process_new_email, hp, hs, hc, update_jira_ticket, hu]
    rfl
  · intro k hc hu
    simp only [process_new_email, hp, hs, hc, update_jira_ticket, hu]
    rfl
  · intro key hc hk
    simp only [process_new_email, hp, hs, hc, create_jira_ticket, hk]
    rfl
  · intro hc hk
    simp only [process_new_email, hp, hs, hc, create_jira_ticket, hk]
    rfl

set_option maxRecDepth 8192 in
/-- C1 witness: scenario B with a succeeding tracker update ends
`Completed` mentioning `TICK-45`. -/
theorem tracker_outcome_witness :
    (process_new_email envExistingOk).updates.getLast? =
      some (Status.Completed, "Updated ticket TICK-45") :=
  (tracker_outcome_statuses envExistingOk
      ⟨"Fwd: Build failing TICK-45".toList, "stack trace",
       "bob@example.com", ["support@example.com"], []⟩
      (.str "Build failing") "Summary: Build failing..." rfl rfl).1
    ("TICK-45".toList) rfl rfl

set_option maxRecDepth 8192 in
/-- C6 counterexample: a reply that decodes to the JSON object with no
keys at all: the orchestrator does not mark the message `Failed` — it
continues with the `.get` defaults, issues the tracker create and
ends `Completed`, refuting the claim. -/
theorem missing_keys_not_failed :
    envEmptyObj.decodeResult = .ok (.obj [])
  ∧ ((process_new_email envEmptyObj).updates.map Prod.fst).getLast? =
      some Status.Completed
  ∧ ((process_new_email envEmptyObj).updates.map Prod.fst).contains
      Status.Failed = false
  ∧ (process_new_email envEmptyObj).trackerCalls.length = 1 :=
  ⟨rfl, rfl, rfl, rfl⟩

set_option maxRecDepth 8192 in
/-- C6 (amended): when the summarization reply decodes to a JSON
object in which the `summary` key is absent, the orchestrator does
not fail: the `.get` default "No summary available" is used, the
record's second update announces it as the summary, the tracker is
still called whenever the message is not spam, and the only `Failed`
detail that can still occur is the tracker one — never a
summarization failure.  A `Failed` mark at the summarization stage
happens only when the decode itself raises or the decoded value is
not an object. -/
theorem missing_keys_default_and_continue (env : ProcEnv)
    (ed : EmailData) (fs : List (String × PyVal))
    (hp : env.parseResult = .ok ed)
    (hd : env.decodeResult = .ok (.obj fs))
    (hk : fs.find? (fun f => f.1 == "summary") = none) :
    (process_new_email env).updates.take 2 =
      [(Status.Processing, "Email received"),
       (Status.Processing, "Summary: No summary available...")]
  ∧ (categorize_email ed ≠ .spam → (process_new_email env).trackerCalls ≠ [])
  ∧ (∀ d, (Status.Failed, d) ∈ (process_new_email env).updates →
      d = "Failed to create ticket") := by
  have hget : dictGet fs "summary" (.str "No summary available")
      = .str "No summary available" := by
    unfold dictGet
    rw [hk]
  have hs : summarizeStep env.decodeResult =
      .ok (.str "No summary available",
           "Summary: No summary available...") := by
    rw [hd, summarizeStep_obj, hget]
    rfl
  refine ⟨?_, ?_, ?_⟩
  · rcases hc : categorize_email ed with _ | k | _
    · simp [process_new_email, hp, hs, hc]
    · rcases hu : env.tracker.updateOk with _ | _ <;>
        simp [process_new_email, hp, hs, hc, update_jira_ticket, hu]
    · rcases hk2 : env.tracker.createKey with _ | key <;>
        simp [process_new_email, hp, hs, hc, create_jira_ticket, hk2]
  · intro hnotspam
    rcases hc : categorize_email ed with _ | k | _
    · exact absurd hc hnotspam
    · rcases hu : env.tracker.updateOk with _ | _ <;>
        simp [process_new_email, hp, hs, hc, update_jira_ticket, hu]
    · rcases hk2 : env.tracker.createKey with _ | key <;>
        simp [process_new_email, hp, hs, hc, create_jira_ticket, hk2]
  · intro d hd2
    rcases hc : categorize_email ed with _ | k | _
    · simp [process_new_email, hp, hs, hc] at hd2
    · rcases hu : env.tracker.updateOk with _ | _ <;>
        simp [process_new_email, hp, hs, hc, update_jira_ticket, hu] at hd2
    · rcases hk2 : env.tracker.createKey with _ | key <;>
        simp [process_new_email, hp, hs, hc, create_jira_ticket, hk2] at hd2
      exact hd2

set_option maxRecDepth 8192 in
/-- C6 witness: the empty-object reply on the scenario-C message. -/
theorem missing_keys_witness :
    (process_new_email envEmptyObj).updates.take 2 =
      [(Status.Processing, "Email received"),
       (Status.Processing, "Summary: No summary available...")] :=
  (missing_keys_default_and_continue envEmptyObj
      ⟨"Server down".toList, "the server is down", "alice@example.com",
       ["ops@example.com"], []⟩
      [] rfl rfl rfl).1

/-- C3 counterexample: a run with one good poll cycle, then a session
abort, then one further scripted cycle: the loop re-raises the session
error and terminates — the message of the third cycle is never
processed and no reconnection happens (the source has no `reconnect`
at all), refuting the claim that the watcher reconnects and resumes
polling. -/
theorem session_abort_terminates_loop :
    scriptAbort.length = 3
  ∧ (monitor_inbox scriptAbort).result =
      .error "imaplib abort: socket error"
  ∧ (monitor_inbox scriptAbort).processed.length = 1 :=
  ⟨rfl, rfl, rfl⟩

/-- C3 (amended): an exception at the `select`/`search` step of the
watch loop is logged and re-raised: the loop terminates with exactly
the messages of the preceding cycles processed and the scripted
cycles after the abort never run; there is no `reconnect` call.  Only
errors inside a single message's fetch/processing are caught by the
per-message handler, so a message failure never changes the loop's
outcome. -/
theorem monitor_session_error_behavior :
    (∀ pre e post, (monitor_inbox pre).result = .ok () →
      monitor_inbox (pre ++ .sessionError e :: post) =
        ⟨(monitor_inbox pre).processed, .error e⟩)
  ∧ (∀ msgs rest,
      (monitor_inbox (.ok msgs :: rest)).result =
        (monitor_inbox rest).result) := by
  constructor
  · intro pre e post
    induction pre with
    | nil => intro _; rfl
    | cons c cs ih =>
      intro h
      cases c with
      | sessionError e2 => exact absurd h (by simp [monitor_inbox])
      | ok msgs =>
        have h2 : (monitor_inbox cs).result = .ok () := h
        simp only [List.cons_append, monitor_inbox, List.append_eq, ih h2]
  · intro msgs rest
    rfl

/-- C3 witness: a concrete run of the amended statement. -/
theorem monitor_session_error_witness :
    monitor_inbox
        ([CycleScript.ok [⟨.ok envNewOk⟩]] ++
          CycleScript.sessionError "abort" :: [CycleScript.ok []]) =
      ⟨(monitor_inbox [CycleScript.ok [⟨.ok envNewOk⟩]]).processed,
       .error "abort"⟩ :=
  monitor_session_error_behavior.1 [CycleScript.ok [⟨.ok envNewOk⟩]]
    "abort" [CycleScript.ok []] rfl

/-- Python's substring test agrees with the mathematical infix
relation. -/
theorem containsSub_iff (n h : List Char) :
    containsSub n h = true ↔ n <:+: h := by
  induction h with
  | nil =>
    rw [containsSub]
    simp [List.isPrefixOf_iff_prefix]
  | cons a t ih =>
    rw [containsSub]
    simp [List.isPrefixOf_iff_prefix, ih, List.infix_cons_iff]

/-- A successful match consumes at least one character of the
input. -/
theorem matchTicketAt_rest_length (cs m rest : List Char)
    (h : matchTicketAt cs = some (m, rest)) : rest.length < cs.length := by
  unfold matchTicketAt at h
  dsimp only at h
  split at h
  · exact absurd h (by simp)
  · split at h
    · next rest1 heq =>
      split at h
      · exact absurd h (by simp)
      · next hds =>
        obtain ⟨hm, hr⟩ := Prod.mk.injEq .. ▸ Option.some.injEq .. ▸ h
        have hlen : (cs.takeWhile isUpperAZ).length
            + (cs.dropWhile isUpperAZ).length = cs.length := by
          conv_rhs => rw [← List.takeWhile_append_dropWhile (p := isUpperAZ) (l := cs)]
          rw [List.length_append]
        rw [heq] at hlen
        have hups : 0 < (cs.takeWhile isUpperAZ).length := by
          rename_i hne _
          have := List.isEmpty_eq_false.mp (Bool.not_eq_true _ ▸ hne)
          cases hl : (cs.takeWhile isUpperAZ) with
          | nil => simp [hl] at this
          | cons x xs => simp [hl]
        have hds2 : 0 < (rest1.takeWhile isDigit09).length := by
          have := List.isEmpty_eq_false.mp (Bool.not_eq_true _ ▸ hds)
          cases hl : (rest1.takeWhile isDigit09) with
          | nil => simp [hl] at this
          | cons x xs => simp [hl]
        have hrlen : rest.length = rest1.length
            - (rest1.takeWhile isDigit09).length := by
          rw [← hr, List.length_drop]
        have htw : (rest1.takeWhile isDigit09).length ≤ rest1.length :=
          (List.takeWhile_prefix _).length_le
        simp only [List.length_cons] at hlen
        omega
    · exact absurd h (by simp)

/-- The fuel argument of `findAllAux` is irrelevant once it covers the
input length, so `findAllTickets` is the plain left-to-right
non-overlapping scan. -/
theorem findAllAux_fuel_irrelevant (f1 : Nat) :
    ∀ f2 cs, cs.length ≤ f1 → cs.length ≤ f2 →
      findAllAux f1 cs = findAllAux f2 cs := by
  induction f1 with
  | zero =>
    intro f2 cs h1 _
    have : cs = [] := List.length_eq_zero.mp (Nat.le_zero.mp h1)
    subst this
    cases f2 <;> rfl
  | succ f ih =>
    intro f2 cs h1 h2
    cases cs with
    | nil => cases f2 <;> rfl
    | cons c t =>
      cases f2 with
      | zero => simp at h2
      | succ g =>
        simp only [findAllAux]
        cases hm : matchTicketAt (c :: t) with
        | none =>
          exact ih g t (by simpa using Nat.le_of_succ_le_succ h1)
            (by simpa using Nat.le_of_succ_le_succ h2)
        | some pr =>
          obtain ⟨m, rest⟩ := pr
          have hr := matchTicketAt_rest_length _ _ _ hm
          simp only [List.length_cons] at h1 h2 hr
          dsimp only
          rw [ih g rest (by omega) (by omega)]

/-- The head of the `re.findall` result is the leftmost match. -/
theorem findAllAux_head (fuel : Nat) :
    ∀ cs, cs.length ≤ fuel →
      (findAllAux fuel cs).head? = findFirstTicket cs := by
  induction fuel with
  | zero =>
    intro cs h
    have : cs = [] := List.length_eq_zero.mp (Nat.le_zero.mp h)
    subst this
    rfl
  | succ f ih =>
    intro cs h
    cases cs with
    | nil => rfl
    | cons c t =>
      rw [findAllAux, findFirstTicket]
      cases hm : matchTicketAt (c :: t) with
      | none => exact ih t (by simpa using Nat.le_of_succ_le_succ h)
      | some pr => rfl

/-- Specialization to `findAllTickets`. -/
theorem findAllTickets_head (cs : List Char) :
    (findAllTickets cs).head? = findFirstTicket cs :=
  findAllAux_head cs.length cs le_rfl

/-- No position of the input matches the pattern exactly when the scan
finds nothing. -/
theorem findFirstTicket_none_iff (s : List Char) :
    findFirstTicket s = none ↔ ∀ i, matchTicketAt (s.drop i) = none := by
  induction s with
  | nil =>
    constructor
    · intro _ i
      rw [List.drop_nil]
      rfl
    · intro _
      rfl
  | cons c t ih =>
    rw [findFirstTicket]
    cases hm : matchTicketAt (c :: t) with
    | some pr =>
      simp only []
      constructor
      · intro h
        exact absurd h (by simp)
      · intro hf
        have h0 := hf 0
        rw [List.drop_zero, hm] at h0
        exact absurd h0 (by simp)
    | none =>
      simp only []
      rw [ih]
      constructor
      · intro h i
        cases i with
        | zero => simpa [List.drop_zero] using hm
        | succ j => simpa [List.drop_succ_cons] using h j
      · intro h j
        simpa [List.drop_succ_cons] using h (j + 1)

/-- The scan returns the match found at the first matching position. -/
theorem findFirstTicket_eq_of_leftmost (i : Nat) :
    ∀ s m r, matchTicketAt (s.drop i) = some (m, r) →
      (∀ j, j < i → matchTicketAt (s.drop j) = none) →
      findFirstTicket s = some m := by
  induction i with
  | zero =>
    intro s m r hm _
    rw [List.drop_zero] at hm
    cases s with
    | nil => exact absurd hm (by simp [matchTicketAt])
    | cons c t =>
      rw [findFirstTicket, hm]
  | succ j ih =>
    intro s m r hm hnone
    cases s with
    | nil => exact absurd (List.drop_nil ▸ hm) (by simp [matchTicketAt])
    | cons c t =>
      have h0 := hnone 0 (Nat.succ_pos j)
      rw [List.drop_zero] at h0
      rw [List.drop_succ_cons] at hm
      rw [findFirstTicket, h0]
      exact ih t m r hm (fun k hk => by
        have := hnone (k + 1) (Nat.succ_lt_succ hk)
        rwa [List.drop_succ_cons] at this)

/-- Every match of the pattern is a nonempty uppercase run, a hyphen,
then a nonempty digit run. -/
theorem matchTicketAt_shape (cs m r : List Char)
    (h : matchTicketAt cs = some (m, r)) :
    ∃ us ds, m = us ++ '-' :: ds ∧ us ≠ [] ∧ ds ≠ [] ∧
      (∀ c ∈ us, isUpperAZ c = true) ∧ (∀ c ∈ ds, isDigit09 c = true) := by
  unfold matchTicketAt at h
  dsimp only at h
  split at h
  · exact absurd h (by simp)
  · split at h
    · next rest1 heq =>
      split at h
      · exact absurd h (by simp)
      · next hds =>
        rename_i hups _
        obtain ⟨hm, _⟩ := Prod.mk.injEq .. ▸ Option.some.injEq .. ▸ h
        refine ⟨cs.takeWhile isUpperAZ, rest1.takeWhile isDigit09,
          hm.symm, ?_, ?_, ?_, ?_⟩
        · intro hnil
          rw [hnil] at hups
          exact hups rfl
        · intro hnil
          rw [hnil] at hds
          exact hds rfl
        · intro x hx
          exact List.mem_takeWhile_imp hx
        · intro x hx
          exact List.mem_takeWhile_imp hx
    · exact absurd h (by simp)

/-- C2: `categorize_email` is a function of the subject alone
(unchanged body, sender, recipients or attachments cannot change the
outcome); any subject containing a spam keyword case-insensitively as
a substring is classified `spam`, even if a ticket reference is also
present; otherwise, if some position of the subject matches the
ticket pattern, the classification is `existing` with the match at
the leftmost matching position — a match being a nonempty run of
uppercase letters, a hyphen and a nonempty run of digits; otherwise
the classification is `new`. -/
theorem classifier_characterization (ed : EmailData) :
    (∀ ed2 : EmailData, ed2.subject = ed.subject →
        categorize_email ed2 = categorize_email ed)
  ∧ ((∃ k ∈ spam_keywords, k <:+: lowerStr ed.subject) →
        categorize_email ed = .spam)
  ∧ (¬(∃ k ∈ spam_keywords, k <:+: lowerStr ed.subject) →
      ∀ i m r, matchTicketAt (ed.subject.drop i) = some (m, r) →
        (∀ j, j < i → matchTicketAt (ed.subject.drop j) = none) →
        categorize_email ed = .existing m)
  ∧ (¬(∃ k ∈ spam_keywords, k <:+: lowerStr ed.subject) →
      (∀ i, matchTicketAt (ed.subject.drop i) = none) →
        categorize_email ed = .new)
  ∧ (∀ i m r, matchTicketAt (ed.subject.drop i) = some (m, r) →
      ∃ us ds, m = us ++ '-' :: ds ∧ us ≠ [] ∧ ds ≠ [] ∧
        (∀ c ∈ us, isUpperAZ c = true) ∧ (∀ c ∈ ds, isDigit09 c = true)) := by
  have hany : (spam_keywords.any
        (fun k => containsSub k (lowerStr ed.subject))) = true
      ↔ ∃ k ∈ spam_keywords, k <:+: lowerStr ed.subject := by
    rw [List.any_eq_true]
    constructor
    · rintro ⟨k, hk, hc⟩
      exact ⟨k, hk, (containsSub_iff k _).mp hc⟩
    · rintro ⟨k, hk, hc⟩
      exact ⟨k, hk, (containsSub_iff k _).mpr hc⟩
  refine ⟨?_, ?_, ?_, ?_, ?_⟩
  · intro ed2 hsub
    unfold categorize_email
    rw [hsub]
  · intro hex
    unfold categorize_email
    rw [if_pos (hany.mpr hex)]
  · intro hnex i m r hm hnone
    unfold categorize_email
    rw [if_neg (fun hc => hnex (hany.mp hc))]
    have hff : findFirstTicket ed.subject = some m :=
      findFirstTicket_eq_of_leftmost i ed.subject m r hm hnone
    have hhd : (findAllTickets ed.subject).head? = some m :=
      (findAllTickets_head ed.subject).trans hff
    cases hf : findAllTickets ed.subject with
    | nil => rw [hf] at hhd; exact absurd hhd (by simp)
    | cons a l =>
      rw [hf] at hhd
      simp only [List.head?_cons, Option.some.injEq] at hhd
      rw [hhd]
  · intro hnex hall
    unfold categorize_email
    rw [if_neg (fun hc => hnex (hany.mp hc))]
    have hff : findFirstTicket ed.subject = none :=
      (findFirstTicket_none_iff ed.subject).mpr hall
    have hhd : (findAllTickets ed.subject).head? = none :=
      (findAllTickets_head ed.subject).trans hff
    cases hf : findAllTickets ed.subject with
    | nil => rfl
    | cons a l => rw [hf] at hhd; exact absurd hhd (by simp)
  · intro i m r hm
    exact matchTicketAt_shape _ m r hm

set_option maxRecDepth 8192 in
/-- C2 witness: scenario A's subject contains the keyword "deal"
case-insensitively and is classified `spam`. -/
theorem classifier_witness :
    categorize_email
        ⟨"Re: Weekly Deal Promotion".toList, "body", "sender", [], []⟩ =
      Category.spam :=
  (classifier_characterization _).2.1 (by decide)

/-- Per-invocation shape of the status writes: every update before the
last one carries status `Processing`; a terminal status can only be
the last write of the invocation. -/
theorem process_statuses_processing (env : ProcEnv) :
    ∀ s ∈ ((process_new_email env).updates.map Prod.fst).dropLast,
      s = Status.Processing := by
  obtain ⟨cfg, pr, dr, uok, ckey⟩ := env
  rcases pr with e | ed
  · simp [process_new_email]
  · rcases hs : summarizeStep dr with e | ⟨summary, d2⟩
    · simp [process_new_email, hs]
    · rcases hc : categorize_email ed with _ | k | _ <;>
        rcases uok with _ | _ <;>
        rcases ckey with _ | key <;>
        simp [process_new_email, hs, hc, update_jira_ticket,
          create_jira_ticket]

/-- Record selection distributes over log concatenation. -/
theorem statusesFor_append (id : Nat)
    (a b : List (Nat × Status × String)) :
    statusesFor id (a ++ b) = statusesFor id a ++ statusesFor id b :=
  List.filterMap_append ..

/-- Updates tagged with the id under examination are all selected. -/
theorem statusesFor_tag_eq (n : Nat) (us : List (Status × String)) :
    statusesFor n (us.map (fun u => (n, u.1, u.2))) = us.map Prod.fst := by
  induction us with
  | nil => rfl
  | cons u t ih =>
    simp [statusesFor, List.filterMap_cons] at ih ⊢
    exact ih

/-- Updates tagged with a different id are all discarded. -/
theorem statusesFor_tag_ne (id n : Nat) (h : id ≠ n)
    (us : List (Status × String)) :
    statusesFor id (us.map (fun u => (n, u.1, u.2))) = [] := by
  simp [statusesFor, List.filterMap_map, Ne.symm h]

/-- A cycle starting at id `n` writes nothing to records with a
smaller id. -/
theorem cycleLog_out_lt (ms : List MsgScript) :
    ∀ n id, id < n → statusesFor id (cycleLog n ms) = [] := by
  induction ms with
  | nil =>
    intro n id _
    rfl
  | cons m t ih =>
    intro n id h
    cases hf : m.fetch with
    | error e =>
      rw [cycleLog, hf]
      exact ih n id h
    | ok env =>
      rw [cycleLog, hf, statusesFor_append,
        statusesFor_tag_ne id n (Nat.ne_of_lt h),
        ih (n + 1) id (Nat.lt_succ_of_lt h)]
      rfl

/-- A cycle starting at id `n` writes nothing to records with an id at
or beyond `n` plus its number of processed messages. -/
theorem cycleLog_out_ge (ms : List MsgScript) :
    ∀ n id, n + okCount ms ≤ id → statusesFor id (cycleLog n ms) = [] := by
  induction ms with
  | nil =>
    intro n id _
    rfl
  | cons m t ih =>
    intro n id h
    cases hf : m.fetch with
    | error e =>
      rw [cycleLog, hf]
      simp only [okCount, hf] at h
      exact ih n id h
    | ok env =>
      simp only [okCount, hf] at h
      rw [cycleLog, hf, statusesFor_append,
        statusesFor_tag_ne id n (by omega),
        ih (n + 1) id (by omega)]
      rfl

/-- Within one cycle, the writes to any single record are either
absent or exactly the writes of one invocation. -/
theorem cycleLog_single (ms : List MsgScript) :
    ∀ n id, n ≤ id →
      statusesFor id (cycleLog n ms) = [] ∨
      ∃ env, statusesFor id (cycleLog n ms) =
        (process_new_email env).updates.map Prod.fst := by
  induction ms with
  | nil =>
    intro n id _
    left
    rfl
  | cons m t ih =>
    intro n id hlo
    cases hf : m.fetch with
    | error e =>
      rw [cycleLog, hf]
      exact ih n id hlo
    | ok env =>
      rcases Nat.eq_or_lt_of_le hlo with heq | hlt
      · right
        refine ⟨env, ?_⟩
        rw [cycleLog, hf, statusesFor_append, ← heq, statusesFor_tag_eq,
          cycleLog_out_lt t (n + 1) n (Nat.lt_succ_self n), List.append_nil]
      · rw [cycleLog, hf, statusesFor_append,
          statusesFor_tag_ne id n (Nat.ne_of_gt hlt)]
        have := ih (n + 1) id hlt
        simpa using this

/-- A run starting at id `n` writes nothing to records with a smaller
id. -/
theorem monitor_log_out_lt (script : List CycleScript) :
    ∀ n id, id < n → statusesFor id (monitor_log n script) = [] := by
  induction script with
  | nil =>
    intro n id _
    rfl
  | cons c rest ih =>
    intro n id h
    cases c with
    | sessionError e => rfl
    | ok msgs =>
      rw [monitor_log, statusesFor_append, cycleLog_out_lt msgs n id h,
        ih (n + okCount msgs) id (by omega)]
      rfl

/-- Over a whole run, the writes to any single record are either
absent or exactly the writes of one `process_new_email`
invocation. -/
theorem monitor_log_single (script : List CycleScript) :
    ∀ n id, n ≤ id →
      statusesFor id (monitor_log n script) = [] ∨
      ∃ env, statusesFor id (monitor_log n script) =
        (process_new_email env).updates.map Prod.fst := by
  induction script with
  | nil =>
    intro n id _
    left
    rfl
  | cons c rest ih =>
    intro n id hlo
    cases c with
    | sessionError e =>
      left
      rfl
    | ok msgs =>
      by_cases hid : id < n + okCount msgs
      · have h2 : statusesFor id (monitor_log (n + okCount msgs) rest) = [] :=
          monitor_log_out_lt rest (n + okCount msgs) id hid
        rcases cycleLog_single msgs n id hlo with h1 | ⟨env, h1⟩
        · left
          rw [monitor_log, statusesFor_append, h1, h2]
          rfl
        · right
          refine ⟨env, ?_⟩
          rw [monitor_log, statusesFor_append, h1, h2, List.append_nil]
      · push_neg at hid
        have h1 : statusesFor id (cycleLog n msgs) = [] :=
          cycleLog_out_ge msgs n id hid
        rcases ih (n + okCount msgs) id hid with h2 | ⟨env, h2⟩
        · left
          rw [monitor_log, statusesFor_append, h1, h2]
          rfl
        · right
          refine ⟨env, ?_⟩
          rw [monitor_log, statusesFor_append, h1, h2, List.nil_append]

/-- C8: over any run of the watch loop, the sequence of status values
written to any single ledger record is monotone along the state
machine and never leaves a terminal state: every write except
possibly the final one is the non-terminal `Processing`, so a
terminal status (`Completed`, `Failed` or `Skipped`) can only be the
record's last write for the life of the process. -/
theorem record_statuses_monotone (script : List CycleScript) (id : Nat) :
    ((statusesFor id (monitor_log 0 script)).dropLast.all
      (fun s => s == Status.Processing)) = true := by
  rcases monitor_log_single script 0 id (Nat.zero_le id) with h | ⟨env, h⟩
  · rw [h]
    rfl
  · rw [h, List.all_eq_true]
    intro s hsm
    have hp := process_statuses_processing env s hsm
    simp [hp]


end JiraAuto
